import Mathlib

/-!
Shallow embedding of the Project-Khepri tool server.

The Operation Library lives in src/main.py; src/coder.py registers each
operation as a named tool on a FastMCP server.  Host-system effects are
modelled by an explicit `World` state: a flat file store, a set of existing
directories, a set of write-protected paths, the current working directory,
the process environment, and two oracles — one for `subprocess.run` (the
shell) and one for `requests.get` (the HTTP client).  A Python call that may
raise is modelled as `Except String α`, where `.error msg` is an exception
carrying `str(e) = msg`; code the source wraps in `try/except` handles the
`.error` case, code outside any `try` lets it escape.
-/

/-- Values of the Python dictionaries the operations return (strings,
booleans, integers, lists and nested dictionaries). -/
inductive PyVal where
  | str (s : String)
  | bool (b : Bool)
  | int (n : Int)
  | list (xs : List PyVal)
  | dict (kvs : List (String × PyVal))
deriving Repr, BEq

/-- A Python dictionary: ordered key/value pairs, as the source constructs
them with dict literals. -/
abbrev PyDict := List (String × PyVal)

/-- Host state together with the oracles for the two external services.
`shell cmd` is the outcome of `subprocess.run(cmd, shell=True, ...)`: on
normal completion `(stdout, stderr, returncode)` — whatever the exit status —
and `.error msg` only when spawning itself raises.  `net url params` is the
outcome of `requests.get(url, params=params)`: `.ok body` is the response
text for ANY HTTP status (requests does not raise on 4xx/5xx), `.error msg`
only for a transport-level exception (DNS, connection, timeout). -/
structure World where
  files : List (String × String)
  dirs : List String
  locked : List String
  cwd : String
  osEnviron : List (String × String)
  shell : String → Except String (String × String × Int)
  net : String → List (String × String) → Except String String
  mtimeOf : String → Int
  ctimeOf : String → Int

/-- Insert or replace a binding in the file store, keeping other entries. -/
def setFile : List (String × String) → String → String → List (String × String)
  | [], p, c => [(p, c)]
  | (q, d) :: rest, p, c => if q = p then (p, c) :: rest else (q, d) :: setFile rest p c

/-- Split a character list on the path separator. -/
def splitSlash : List Char → List (List Char)
  | [] => [[]]
  | c :: cs =>
      let rest := splitSlash cs
      if c = '/' then [] :: rest
      else match rest with
        | r :: rs => (c :: r) :: rs
        | [] => [[c]]

/-- The `/`-separated components of a relative path. -/
def pathParts (p : String) : List String := (splitSlash p.toList).map List.asString

/-- The directory containing a relative path (`"."` for a bare file name). -/
def parentDir (p : String) : String :=
  let parts := pathParts p
  if parts.length ≤ 1 then "." else String.intercalate "/" parts.dropLast

/-- Last component of a relative path. -/
def baseName (p : String) : String := (pathParts p).getLastD p

/-- Whether a directory exists (the working directory `"."` always does). -/
def dirExists (w : World) (d : String) : Bool := d == "." || w.dirs.contains d

/-- Whether anything (file or directory) exists at the path, as
`Path.exists()` reports it. -/
def pathExists (w : World) (p : String) : Bool :=
  (w.files.lookup p).isSome || w.dirs.contains p

/-- Value returned by `os.environ.get(k, "")`. -/
def osEnvGet (w : World) (k : String) : String := (w.osEnviron.lookup k).getD ""

/-- Outcome of `open(path, "r").read()`: the stored content, or an
exception for a directory, a protected path, or a missing file. -/
def pyReadFile (w : World) (path : String) : Except String String :=
  if w.dirs.contains path then .error ("Is a directory: " ++ path)
  else if w.locked.contains path then .error ("Permission denied: " ++ path)
  else match w.files.lookup path with
    | some c => .ok c
    | none => .error ("No such file or directory: " ++ path)

/-- Outcome of `open(path, mode).write(content)`.  Mode `"w"` replaces the
file, `"a"` appends to it (creating it empty first when absent); either
fails when the path is a directory, is write-protected, or its parent
directory does not exist, as `open` does. -/
def pyWriteFile (w : World) (path content mode : String) : Except String World :=
  if w.dirs.contains path then .error ("Is a directory: " ++ path)
  else if w.locked.contains path then .error ("Permission denied: " ++ path)
  else if !(dirExists w (parentDir path)) then .error ("No such file or directory: " ++ path)
  else if mode = "a" then
    .ok { w with files := setFile w.files path (((w.files.lookup path).getD "") ++ content) }
  else if mode = "w" then
    .ok { w with files := setFile w.files path content }
  else .error ("invalid mode: " ++ mode)

/-- Outcome of `Path(path).mkdir(exist_ok=True)`: an existing directory is
fine, but a regular file at the path still raises `FileExistsError`, and a
missing parent raises `FileNotFoundError`. -/
def pyMkdir (w : World) (path : String) : Except String World :=
  if (w.files.lookup path).isSome then .error ("File exists: " ++ path)
  else if w.dirs.contains path then .ok w
  else if !(dirExists w (parentDir path)) then .error ("No such file or directory: " ++ path)
  else .ok { w with dirs := path :: w.dirs }

/-- All ancestor prefixes of a relative path, shortest first
(for `"a/b/c"`: `["a", "a/b", "a/b/c"]`). -/
def pathPrefixes (p : String) : List String :=
  let parts := pathParts p
  (List.range parts.length).map (fun i => String.intercalate "/" (parts.take (i + 1)))

/-- Outcome of `os.makedirs(path, exist_ok=True)`: creates the path and all
missing intermediate segments; an existing directory anywhere on the chain is
fine, a regular file on it raises. -/
def pyMakedirs (w : World) (path : String) : Except String World :=
  if (pathPrefixes path).any (fun q => (w.files.lookup q).isSome) then
    .error ("File exists: " ++ path)
  else
    .ok { w with dirs := (pathPrefixes path).filter (fun q => !w.dirs.contains q) ++ w.dirs }

/-- Outcome of `os.listdir(d)`: the names of the entries whose parent is `d`,
or an exception when `d` is a regular file or does not exist. -/
def pyListdir (w : World) (d : String) : Except String (List String) :=
  if (w.files.lookup d).isSome then .error ("Not a directory: " ++ d)
  else if dirExists w d then
    .ok ((((w.files.map Prod.fst) ++ w.dirs).filter (fun p => parentDir p == d)).map baseName)
  else .error ("No such file or directory: " ++ d)

/-- Outcome of `os.stat(p)` together with `os.path.isdir`/`isfile`, already
shaped as the `info` dictionary built by `get_file_info`.  A file's size is
its content's byte length; the two timestamps come from the world's host
clock abstraction. -/
def pyStat (w : World) (p : String) : Except String PyDict :=
  match w.files.lookup p with
  | some c => .ok [("size", .int (c.utf8ByteSize : Int)),
      ("modified_time", .int (w.mtimeOf p)), ("created_time", .int (w.ctimeOf p)),
      ("is_directory", .bool false), ("is_file", .bool true)]
  | none =>
    if dirExists w p then
      .ok [("size", .int 0),
        ("modified_time", .int (w.mtimeOf p)), ("created_time", .int (w.ctimeOf p)),
        ("is_directory", .bool true), ("is_file", .bool false)]
    else .error ("No such file or directory: " ++ p)

/-- Operation `run_command` (src/main.py:9-31): runs the command through the
shell and returns stdout, stderr and the exit code; when spawning raises, the
exception is caught and converted to `stdout=""`, `stderr=str(e)`,
`exit_code=1`.  Note the returned dictionary has no `success` key in either
branch. -/
def run_command (w : World) (command : String) : PyDict :=
  match w.shell command with
  | .ok (out, err, code) =>
      [("stdout", .str out), ("stderr", .str err), ("exit_code", .int code)]
  | .error e =>
      [("stdout", .str ""), ("stderr", .str e), ("exit_code", .int 1)]

/-- Operation `read_file` (src/main.py:33-48). -/
def read_file (w : World) (file_path : String) : PyDict :=
  match pyReadFile w file_path with
  | .ok content => [("content", .str content), ("success", .bool true)]
  | .error e => [("content", .str ""), ("error", .str e), ("success", .bool false)]

/-- Operation `write_file` (src/main.py:50-67); the Python `mode` parameter
defaults to `"w"`, which callers here pass explicitly.  Returns the result
dictionary together with the updated world. -/
def write_file (w : World) (file_path content mode : String) : PyDict × World :=
  match pyWriteFile w file_path content mode with
  | .ok w' => ([("success", .bool true)], w')
  | .error e => ([("success", .bool false), ("error", .str e)], w)

/-- Operation `append_file` (src/main.py:69-80): delegates to `write_file`
with append mode. -/
def append_file (w : World) (file_path content : String) : PyDict × World :=
  write_file w file_path content "a"

/-- The fixed Google Custom Search endpoint used by `web_search`. -/
def googleSearchURL : String := "https://www.googleapis.com/customsearch/v1"

/-- The query parameters `web_search` passes to `requests.get`: the query
plus the two credentials read from `os.environ` at call time (empty string
when a variable is absent). -/
def searchParams (w : World) (query : String) : List (String × String) :=
  [("q", query), ("key", osEnvGet w "GOOGLE_API_KEY"),
   ("cx", osEnvGet w "GOOGLE_SEARCH_ENGINE_ID")]

/-- Operation `web_search` (src/main.py:82-103): issues the request and
returns `response.text` as `results`; only an exception from the HTTP client
is caught and converted to the failure dictionary. -/
def web_search (w : World) (query : String) : PyDict :=
  match w.net googleSearchURL (searchParams w query) with
  | .ok text => [("results", .str text), ("success", .bool true)]
  | .error e => [("results", .str ""), ("error", .str e), ("success", .bool false)]

/-- Operation `web_fetch` (src/main.py:105-119). -/
def web_fetch (w : World) (url : String) : PyDict :=
  match w.net url [] with
  | .ok text => [("content", .str text), ("success", .bool true)]
  | .error e => [("content", .str ""), ("error", .str e), ("success", .bool false)]

/-- The fixed relative path of the plan document. -/
def planPath : String := "project_plan/action_plan.md"

/-- The header `create_project_plan` and `append_to_project_plan` stamp:
title line, blank line, working-directory line, blank line. -/
def planHeader (cwd : String) : String :=
  "# Project Action Plan\n\nWorking Directory: " ++ cwd ++ "\n\n"

/-- Operation `create_project_plan` (src/main.py:121-141).  The
`plan_dir.mkdir(exist_ok=True)` call is OUTSIDE any `try` block in the
source, so when it raises the exception escapes the function: that case is
the `.error` of the returned `Except`.  Otherwise the header plus content is
written through `write_file` and its result dictionary returned. -/
def create_project_plan (w : World) (plan_content : String) :
    Except String (PyDict × World) :=
  match pyMkdir w "project_plan" with
  | .error e => .error e
  | .ok w1 =>
      let plan_with_dir := planHeader w1.cwd ++ plan_content
      .ok (write_file w1 planPath plan_with_dir "w")

/-- Operation `append_to_project_plan` (src/main.py:143-161): when the plan
file does not exist it first writes the bare header (discarding that call's
result dictionary, as the source does), then appends the content prefixed by
a newline. -/
def append_to_project_plan (w : World) (additional_content : String) :
    PyDict × World :=
  let w1 :=
    if pathExists w planPath then w
    else (write_file w planPath (planHeader w.cwd) "w").2
  append_file w1 planPath ("\n" ++ additional_content)

/-- Operation `read_project_plan` (src/main.py:163-171). -/
def read_project_plan (w : World) : PyDict :=
  read_file w planPath

/-- Operation `list_directory` (src/main.py:173-187). -/
def list_directory (w : World) (directory : String) : PyDict :=
  match pyListdir w directory with
  | .ok contents => [("contents", .list (contents.map PyVal.str)), ("success", .bool true)]
  | .error e => [("contents", .list []), ("error", .str e), ("success", .bool false)]

/-- Operation `get_file_info` (src/main.py:189-210). -/
def get_file_info (w : World) (file_path : String) : PyDict :=
  match pyStat w file_path with
  | .ok info => [("info", .dict info), ("success", .bool true)]
  | .error e => [("info", .dict []), ("error", .str e), ("success", .bool false)]

/-- Operation `create_directory` (src/main.py:212-226). -/
def create_directory (w : World) (directory_path : String) : PyDict × World :=
  match pyMakedirs w directory_path with
  | .ok w' => ([("success", .bool true)], w')
  | .error e => ([("success", .bool false), ("error", .str e)], w)

/-- Modelled from the spec: the tool names src/coder.py registers on the
FastMCP server (the dispatcher itself is library code, not in src/), in
registration order, each bound to one Operation Library function. -/
def toolNames : List String :=
  ["execute_command", "read_file_content", "write_file_content", "append_to_file",
   "search_web", "fetch_url", "create_plan", "append_plan", "read_plan",
   "list_dir", "get_file_details", "create_dir"]

/-- String argument lookup in an invocation's argument mapping: the supplied
value, or the declared default when the key is absent, or `none` when the key
is absent without a default or holds a value of the wrong shape. -/
def argStr (args : PyDict) (k : String) (dflt : Option String) : Option String :=
  match args.lookup k with
  | some (.str s) => some s
  | some _ => none
  | none => dflt

/-- Modelled from the spec: the possible outcomes of one dispatch.  The
dispatcher either relays the bound operation's result dictionary unchanged,
answers an unregistered name with its own Failure-shaped envelope (a kind
distinguishable from an Operation Library failure), rejects arguments that do
not match the declared parameters, or — when the bound operation lets an
exception escape — faults. -/
inductive InvokeOutcome where
  | relayed (env : PyDict) (w : World)
  | unknownTool (env : PyDict) (w : World)
  | invalidArgs (msg : String) (w : World)
  | fault (msg : String)

/-- Modelled from the spec: dispatch of a registered tool name to its bound
Operation Library function, binding the declared parameters (with declared
defaults applied when an argument is omitted).  Extra keys are ignored. -/
def callTool (w : World) (name : String) (args : PyDict) : InvokeOutcome :=
  if name = "execute_command" then
    match argStr args "command" none with
    | none => .invalidArgs "command" w
    | some c => .relayed (run_command w c) w
  else if name = "read_file_content" then
    match argStr args "file_path" none with
    | none => .invalidArgs "file_path" w
    | some p => .relayed (read_file w p) w
  else if name = "write_file_content" then
    match argStr args "file_path" none, argStr args "content" none,
        argStr args "mode" (some "w") with
    | some p, some c, some m =>
        let r := write_file w p c m
        .relayed r.1 r.2
    | _, _, _ => .invalidArgs "file_path, content, mode" w
  else if name = "append_to_file" then
    match argStr args "file_path" none, argStr args "content" none with
    | some p, some c =>
        let r := append_file w p c
        .relayed r.1 r.2
    | _, _ => .invalidArgs "file_path, content" w
  else if name = "search_web" then
    match argStr args "query" none with
    | none => .invalidArgs "query" w
    | some q => .relayed (web_search w q) w
  else if name = "fetch_url" then
    match argStr args "url" none with
    | none => .invalidArgs "url" w
    | some u => .relayed (web_fetch w u) w
  else if name = "create_plan" then
    match argStr args "plan_content" none with
    | none => .invalidArgs "plan_content" w
    | some c =>
        match create_project_plan w c with
        | .ok r => .relayed r.1 r.2
        | .error m => .fault m
  else if name = "append_plan" then
    match argStr args "additional_content" none with
    | none => .invalidArgs "additional_content" w
    | some c =>
        let r := append_to_project_plan w c
        .relayed r.1 r.2
  else if name = "read_plan" then
    .relayed (read_project_plan w) w
  else if name = "list_dir" then
    match argStr args "directory" (some ".") with
    | none => .invalidArgs "directory" w
    | some d => .relayed (list_directory w d) w
  else if name = "get_file_details" then
    match argStr args "file_path" none with
    | none => .invalidArgs "file_path" w
    | some p => .relayed (get_file_info w p) w
  else if name = "create_dir" then
    match argStr args "directory_path" none with
    | none => .invalidArgs "directory_path" w
    | some p =>
        let r := create_directory w p
        .relayed r.1 r.2
  else .invalidArgs name w

/-- Modelled from the spec: `invoke(name, arguments)` looks the name up in
the registry; an unregistered name is answered locally with a Failure-shaped
envelope (success=false plus an unknown-tool error), never by throwing; a
registered name is dispatched to its bound operation and the operation's
result dictionary relayed unchanged. -/
def invoke (w : World) (name : String) (args : PyDict) : InvokeOutcome :=
  if toolNames.contains name then callTool w name args
  else .unknownTool
    [("success", .bool false), ("error", .str ("Unknown tool: " ++ name))] w

/-- Lowercase hexadecimal digit, as Python's json module emits them. -/
def hexDigitChar (n : Nat) : Char :=
  if n < 10 then Char.ofNat (48 + n) else Char.ofNat (87 + n)

/-- Four lowercase hex digits. -/
def hex4 (n : Nat) : String :=
  String.mk [hexDigitChar (n / 4096 % 16), hexDigitChar (n / 256 % 16),
    hexDigitChar (n / 16 % 16), hexDigitChar (n % 16)]

/-- One character of a JSON string as `json.dumps` (ensure_ascii) emits it. -/
def escChar (c : Char) : String :=
  if c = '"' then "\\\""
  else if c = '\\' then "\\\\"
  else if c = '\n' then "\\n"
  else if c = '\t' then "\\t"
  else if c = '\r' then "\\r"
  else if c.toNat = 8 then "\\b"
  else if c.toNat = 12 then "\\f"
  else if c.toNat < 32 || c.toNat > 126 then
    if c.toNat < 65536 then "\\u" ++ hex4 c.toNat
    else
      "\\u" ++ hex4 (55296 + (c.toNat - 65536) / 1024) ++
      "\\u" ++ hex4 (56320 + (c.toNat - 65536) % 1024)
  else String.singleton c

/-- A JSON string literal for `s`, as `json.dumps` emits it. -/
def pyQuote (s : String) : String :=
  "\"" ++ String.join (s.toList.map escChar) ++ "\""

/-- A run of `n` spaces. -/
def indentSp (n : Nat) : String := String.mk (List.replicate n ' ')

mutual

/-- Rendering of `json.dumps(v, indent=2)` at a given current indent level:
scalars inline; a non-empty list or dictionary opens its bracket, puts each
element on its own line two spaces deeper, and closes at the current level. -/
def pyJson (ind : Nat) : PyVal → String
  | .str s => pyQuote s
  | .bool b => if b then "true" else "false"
  | .int n => toString n
  | .list [] => "[]"
  | .list (x :: xs) =>
      "[\n" ++ pyJsonItems (ind + 2) (x :: xs) ++ "\n" ++ indentSp ind ++ "]"
  | .dict [] => "\x7b\x7d"
  | .dict (kv :: kvs) =>
      "\x7b\n" ++ pyJsonPairs (ind + 2) (kv :: kvs) ++ "\n" ++ indentSp ind ++ "\x7d"

/-- List elements, one per line, comma-separated. -/
def pyJsonItems (ind : Nat) : List PyVal → String
  | [] => ""
  | [x] => indentSp ind ++ pyJson ind x
  | x :: y :: xs => indentSp ind ++ pyJson ind x ++ ",\n" ++ pyJsonItems ind (y :: xs)

/-- Dictionary entries, one per line, `"key": value`, comma-separated. -/
def pyJsonPairs (ind : Nat) : List (String × PyVal) → String
  | [] => ""
  | [(k, v)] => indentSp ind ++ pyQuote k ++ ": " ++ pyJson ind v
  | (k, v) :: p :: kvs =>
      indentSp ind ++ pyQuote k ++ ": " ++ pyJson ind v ++ ",\n" ++ pyJsonPairs ind (p :: kvs)

end

/-- The rows of the catalog `get_functions_schema` builds (src/main.py:236-250):
each function's `__name__` paired with its stripped docstring, in the order of
the `functions` list. -/
def functionsCatalog : List (String × String) :=
  [("run_command",
    "Run a shell command and return the output and exit code.\n    \n    Args:\n        command: Command to execute\n        \n    Returns:\n        Dictionary with stdout, stderr, and exit_code"),
   ("read_file",
    "Read contents from a file.\n    \n    Args:\n        file_path: Path to the file\n        \n    Returns:\n        Dictionary with content and success status"),
   ("write_file",
    "Write or append content to a file.\n    \n    Args:\n        file_path: Path to the file\n        content: Content to write\n        mode: \x27w\x27 for write (overwrite), \x27a\x27 for append\n        \n    Returns:\n        Dictionary with success status"),
   ("append_file",
    "Append content to a file.\n    \n    Args:\n        file_path: Path to the file\n        content: Content to append\n        \n    Returns:\n        Dictionary with success status"),
   ("web_search",
    "Search the web for information.\n    \n    Args:\n        query: Search query\n        \n    Returns:\n        Dictionary with search results and success status"),
   ("web_fetch",
    "Fetch content from a specific URL.\n    \n    Args:\n        url: URL to fetch content from\n        \n    Returns:\n        Dictionary with content and success status"),
   ("create_project_plan",
    "Create or update the project action plan file.\n    \n    Args:\n        plan_content: Plan content to write\n        \n    Returns:\n        Dictionary with success status"),
   ("append_to_project_plan",
    "Append content to the project action plan.\n    \n    Args:\n        additional_content: Content to append\n        \n    Returns:\n        Dictionary with success status"),
   ("read_project_plan",
    "Read the current project action plan.\n    \n    Returns:\n        Dictionary with plan content and success status"),
   ("list_directory",
    "List contents of a directory.\n    \n    Args:\n        directory: Directory path to list (defaults to current directory)\n        \n    Returns:\n        Dictionary with directory contents and success status"),
   ("get_file_info",
    "Get information about a file (size, modification time, etc).\n    \n    Args:\n        file_path: Path to the file\n        \n    Returns:\n        Dictionary with file information and success status"),
   ("create_directory",
    "Create a new directory.\n    \n    Args:\n        directory_path: Path of directory to create\n        \n    Returns:\n        Dictionary with success status")]

/-- The schema row built for one catalog entry. -/
def schemaRow (nd : String × String) : PyVal :=
  .dict [("name", .str nd.1), ("description", .str nd.2)]

/-- Helper `get_functions_schema` (src/main.py:229-252): the list of
name/description rows serialized by `json.dumps(schema, indent=2)`. -/
def get_functions_schema : String :=
  pyJson 0 (.list (functionsCatalog.map schemaRow))

/-- The `__main__` block (src/main.py:254-262), as the text printed to
standard output.  `argv` models `sys.argv[1:]`: with arguments they are
joined with spaces, run through `run_command`, and the result dictionary
printed as `json.dumps(result, indent=2)`; with none, the banner line and
the function schema are printed instead. -/
def pyMain (w : World) (argv : List String) : String :=
  if argv.length > 0 then
    pyJson 0 (.dict (run_command w (String.intercalate " " argv))) ++ "\n"
  else
    "Available functions:\n" ++ get_functions_schema ++ "\n"

/-- A small concrete host for the concrete evaluations: empty file store,
a shell that knows the command `exit 7` and fails to spawn anything else,
an HTTP client that always answers. -/
def wBase : World where
  files := []
  dirs := []
  locked := []
  cwd := "/home/user"
  osEnviron := []
  shell := fun c =>
    if c = "exit 7" then .ok ("", "", 7) else .error ("No such file or directory: " ++ c)
  net := fun _ _ => .ok "ok"
  mtimeOf := fun _ => 0
  ctimeOf := fun _ => 0

/-- The dictionary carries a boolean `success` field. -/
def hasSuccessBool (d : PyDict) : Prop :=
  ∃ b, d.lookup "success" = some (PyVal.bool b)

/-- The dictionary has an `error` key exactly when its `success` field is
false, and any `error` value is a message string. -/
def errorIffFailure (d : PyDict) : Prop :=
  ((d.lookup "error").isSome ↔ d.lookup "success" = some (PyVal.bool false)) ∧
  (∀ v, d.lookup "error" = some v → ∃ m, v = PyVal.str m)

theorem setFile_lookup (fs : List (String × String)) (p c : String) :
    (setFile fs p c).lookup p = some c := by
  induction fs with
  | nil => simp [setFile, List.lookup]
  | cons kv rest ih =>
      obtain ⟨q, d⟩ := kv
      by_cases hq : q = p
      · subst hq; simp [setFile, List.lookup]
      · simp only [setFile, if_neg hq, List.lookup]
        have : (p == q) = false := by
          simp [beq_eq_false_iff_ne]; exact fun h => hq h.symm
        rw [this]; exact ih

theorem hasSuccess_read_file (w : World) (p : String) :
    hasSuccessBool (read_file w p) := by
  unfold read_file hasSuccessBool
  cases pyReadFile w p <;> exact ⟨_, rfl⟩

theorem hasSuccess_write_file (w : World) (p c m : String) :
    hasSuccessBool (write_file w p c m).1 := by
  unfold write_file hasSuccessBool
  cases pyWriteFile w p c m <;> exact ⟨_, rfl⟩

theorem hasSuccess_append_file (w : World) (p c : String) :
    hasSuccessBool (append_file w p c).1 :=
  hasSuccess_write_file w p c "a"

theorem hasSuccess_web_search (w : World) (q : String) :
    hasSuccessBool (web_search w q) := by
  unfold web_search hasSuccessBool
  cases w.net googleSearchURL (searchParams w q) <;> exact ⟨_, rfl⟩

theorem hasSuccess_web_fetch (w : World) (u : String) :
    hasSuccessBool (web_fetch w u) := by
  unfold web_fetch hasSuccessBool
  cases w.net u [] <;> exact ⟨_, rfl⟩

theorem hasSuccess_create_project_plan (w : World) (c : String) (env : PyDict)
    (w' : World) (h : create_project_plan w c = .ok (env, w')) :
    hasSuccessBool env := by
  unfold create_project_plan at h
  cases hm : pyMkdir w "project_plan" with
  | error e => rw [hm] at h; cases h
  | ok w1 =>
      rw [hm] at h
      simp only [Except.ok.injEq] at h
      have h1 : env = (write_file w1 planPath (planHeader w1.cwd ++ c) "w").1 := by
        rw [h]
      rw [h1]; exact hasSuccess_write_file _ _ _ _

theorem hasSuccess_append_to_project_plan (w : World) (c : String) :
    hasSuccessBool (append_to_project_plan w c).1 := by
  unfold append_to_project_plan
  exact hasSuccess_append_file _ _ _

theorem hasSuccess_read_project_plan (w : World) :
    hasSuccessBool (read_project_plan w) :=
  hasSuccess_read_file w planPath

theorem hasSuccess_list_directory (w : World) (d : String) :
    hasSuccessBool (list_directory w d) := by
  unfold list_directory hasSuccessBool
  cases pyListdir w d <;> exact ⟨_, rfl⟩

theorem hasSuccess_get_file_info (w : World) (p : String) :
    hasSuccessBool (get_file_info w p) := by
  unfold get_file_info hasSuccessBool
  cases pyStat w p <;> exact ⟨_, rfl⟩

theorem hasSuccess_create_directory (w : World) (p : String) :
    hasSuccessBool (create_directory w p).1 := by
  unfold create_directory hasSuccessBool
  cases pyMakedirs w p <;> exact ⟨_, rfl⟩

theorem errIff_read_file (w : World) (p : String) :
    errorIffFailure (read_file w p) := by
  unfold read_file errorIffFailure
  cases pyReadFile w p with
  | ok c => exact ⟨by simp [List.lookup], by intro v hv; simp [List.lookup] at hv⟩
  | error e =>
      exact ⟨by simp [List.lookup], by intro v hv; simp [List.lookup] at hv; exact ⟨e, hv.symm⟩⟩

theorem errIff_write_file (w : World) (p c m : String) :
    errorIffFailure (write_file w p c m).1 := by
  unfold write_file errorIffFailure
  cases pyWriteFile w p c m with
  | ok w' => exact ⟨by simp [List.lookup], by intro v hv; simp [List.lookup] at hv⟩
  | error e =>
      exact ⟨by simp [List.lookup], by intro v hv; simp [List.lookup] at hv; exact ⟨e, hv.symm⟩⟩

theorem errIff_append_file (w : World) (p c : String) :
    errorIffFailure (append_file w p c).1 :=
  errIff_write_file w p c "a"

theorem errIff_web_search (w : World) (q : String) :
    errorIffFailure (web_search w q) := by
  unfold web_search errorIffFailure
  cases w.net googleSearchURL (searchParams w q) with
  | ok t => exact ⟨by simp [List.lookup], by intro v hv; simp [List.lookup] at hv⟩
  | error e =>
      exact ⟨by simp [List.lookup], by intro v hv; simp [List.lookup] at hv; exact ⟨e, hv.symm⟩⟩

theorem errIff_web_fetch (w : World) (u : String) :
    errorIffFailure (web_fetch w u) := by
  unfold web_fetch errorIffFailure
  cases w.net u [] with
  | ok t => exact ⟨by simp [List.lookup], by intro v hv; simp [List.lookup] at hv⟩
  | error e =>
      exact ⟨by simp [List.lookup], by intro v hv; simp [List.lookup] at hv; exact ⟨e, hv.symm⟩⟩

theorem errIff_create_project_plan (w : World) (c : String) (env : PyDict)
    (w' : World) (h : create_project_plan w c = .ok (env, w')) :
    errorIffFailure env := by
  unfold create_project_plan at h
  cases hm : pyMkdir w "project_plan" with
  | error e => rw [hm] at h; cases h
  | ok w1 =>
      rw [hm] at h
      simp only [Except.ok.injEq] at h
      have h1 : env = (write_file w1 planPath (planHeader w1.cwd ++ c) "w").1 := by rw [h]
      rw [h1]; exact errIff_write_file _ _ _ _

theorem errIff_append_to_project_plan (w : World) (c : String) :
    errorIffFailure (append_to_project_plan w c).1 := by
  unfold append_to_project_plan
  exact errIff_append_file _ _ _

theorem errIff_read_project_plan (w : World) :
    errorIffFailure (read_project_plan w) :=
  errIff_read_file w planPath

theorem errIff_list_directory (w : World) (d : String) :
    errorIffFailure (list_directory w d) := by
  unfold list_directory errorIffFailure
  cases pyListdir w d with
  | ok xs => exact ⟨by simp [List.lookup], by intro v hv; simp [List.lookup] at hv⟩
  | error e =>
      exact ⟨by simp [List.lookup], by intro v hv; simp [List.lookup] at hv; exact ⟨e, hv.symm⟩⟩

theorem errIff_get_file_info (w : World) (p : String) :
    errorIffFailure (get_file_info w p) := by
  unfold get_file_info errorIffFailure
  cases pyStat w p with
  | ok info => exact ⟨by simp [List.lookup], by intro v hv; simp [List.lookup] at hv⟩
  | error e =>
      exact ⟨by simp [List.lookup], by intro v hv; simp [List.lookup] at hv; exact ⟨e, hv.symm⟩⟩

theorem errIff_create_directory (w : World) (p : String) :
    errorIffFailure (create_directory w p).1 := by
  unfold create_directory errorIffFailure
  cases pyMakedirs w p with
  | ok w' => exact ⟨by simp [List.lookup], by intro v hv; simp [List.lookup] at hv⟩
  | error e =>
      exact ⟨by simp [List.lookup], by intro v hv; simp [List.lookup] at hv; exact ⟨e, hv.symm⟩⟩

/-- C1: the claim that every operation converts every external-effect failure
into a Failure envelope fails on `create_project_plan`: its directory-creation
call `Path("project_plan").mkdir(exist_ok=True)` sits outside the `try` block,
so in a working directory where `project_plan` exists as a regular file the
`FileExistsError` escapes the function uncaught (the `.error` outcome below)
instead of being returned as a Failure envelope. -/
theorem C1_create_plan_mkdir_uncaught :
    create_project_plan
        { wBase with files := [("project_plan", "not a directory")] } "Step 1" =
      .error "File exists: project_plan" := rfl

/-- C3: invoking the dispatcher with a tool name that is not registered
returns the dispatcher's own Failure-shaped envelope — success=false plus an
unknown-tool error — as an outcome kind distinct from a relayed Operation
Library result, and never a fault. -/
theorem C3_unknown_tool_failure (w : World) (name : String) (args : PyDict)
    (h : toolNames.contains name = false) :
    invoke w name args =
      .unknownTool
        [("success", PyVal.bool false),
         ("error", PyVal.str ("Unknown tool: " ++ name))] w := by
  unfold invoke
  rw [h]
  rfl

/-- C3 witness: the concrete probe `"__not_a_real_tool__"` with empty
arguments against the concrete host. -/
theorem C3_unknown_tool_failure_witness :
    toolNames.contains "__not_a_real_tool__" = false ∧
    invoke wBase "__not_a_real_tool__" [] =
      .unknownTool
        [("success", PyVal.bool false),
         ("error", PyVal.str ("Unknown tool: " ++ "__not_a_real_tool__"))] wBase :=
  ⟨rfl, C3_unknown_tool_failure wBase "__not_a_real_tool__" [] rfl⟩

/-- C4: whenever `write_file(path, "hello", "w")` reports success=true,
reading the same path back yields content "hello". -/
theorem C4_write_read_roundtrip (w : World) (path : String)
    (h : (write_file w path "hello" "w").1.lookup "success" = some (PyVal.bool true)) :
    (read_file (write_file w path "hello" "w").2 path).lookup "content" =
      some (PyVal.str "hello") := by
  unfold write_file at h ⊢
  cases hw : pyWriteFile w path "hello" "w" with
  | error e => rw [hw] at h; simp [List.lookup] at h
  | ok w' =>
      unfold pyWriteFile at hw
      split_ifs at hw with hd hl hp hma
      · exact absurd hma (by decide)
      · injection hw with hww
        subst hww
        have hdm : path ∉ w.dirs := by simpa using hd
        have hlm : path ∉ w.locked := by simpa using hl
        simp [read_file, pyReadFile, hdm, hlm, setFile_lookup, List.lookup]

/-- C4 witness: writing "hello" to `f.txt` on the concrete host succeeds and
reads back as "hello". -/
theorem C4_write_read_roundtrip_witness :
    (write_file wBase "f.txt" "hello" "w").1.lookup "success" = some (PyVal.bool true) ∧
    (read_file (write_file wBase "f.txt" "hello" "w").2 "f.txt").lookup "content" =
      some (PyVal.str "hello") :=
  ⟨rfl, C4_write_read_roundtrip wBase "f.txt" rfl⟩

/-- C7: `run_command` reports the host's exit status in `exit_code` (with no
`success` key discriminating it), and a spawn failure yields exit_code=1,
stderr=the failure message, stdout="". -/
theorem C7_run_command_exit_code (w : World) (cmd : String) :
    (∀ o e c, w.shell cmd = .ok (o, e, c) →
      (run_command w cmd).lookup "exit_code" = some (PyVal.int c) ∧
      (run_command w cmd).lookup "success" = none) ∧
    (∀ m, w.shell cmd = .error m →
      run_command w cmd =
        [("stdout", PyVal.str ""), ("stderr", PyVal.str m),
         ("exit_code", PyVal.int 1)]) := by
  constructor
  · intro o e c h
    unfold run_command
    rw [h]
    exact ⟨rfl, rfl⟩
  · intro m h
    unfold run_command
    rw [h]

/-- C7 witness: on the concrete host `exit 7` completes with status 7 and a
command the host cannot spawn yields the converted failure dictionary. -/
theorem C7_run_command_exit_code_witness :
    ((run_command wBase "exit 7").lookup "exit_code" = some (PyVal.int 7) ∧
     (run_command wBase "exit 7").lookup "success" = none) ∧
    run_command wBase "bogus" =
      [("stdout", PyVal.str ""),
       ("stderr", PyVal.str ("No such file or directory: " ++ "bogus")),
       ("exit_code", PyVal.int 1)] :=
  ⟨(C7_run_command_exit_code wBase "exit 7").1 "" "" 7 rfl,
   (C7_run_command_exit_code wBase "bogus").2 ("No such file or directory: " ++ "bogus") rfl⟩

/-- The provider's auth-error body used in the concrete C8 run. -/
def authErrorBody : String :=
  "\x7b\"error\": \x7b\"code\": 400, \"message\": \"API key not valid.\"\x7d\x7d"

/-- A host with no credentials in the environment whose HTTP client reaches
the provider, which answers the 400 auth-error body (requests does not raise
on an HTTP error status). -/
def wNoCreds : World := { wBase with net := fun _ _ => .ok authErrorBody }

/-- C8 counterexample: with both credentials absent from the environment and
the provider reachable, `web_search` returns success=TRUE with the provider's
auth-error body in `results` — an auth failure does not yield the claimed
success=false envelope, because `requests.get` only raises on transport
errors. -/
theorem C8_counterexample :
    osEnvGet wNoCreds "GOOGLE_API_KEY" = "" ∧
    osEnvGet wNoCreds "GOOGLE_SEARCH_ENGINE_ID" = "" ∧
    web_search wNoCreds "anything" =
      [("results", PyVal.str authErrorBody), ("success", PyVal.bool true)] :=
  ⟨rfl, rfl, rfl⟩

/-- C8 (amended): `web_search` reads both credentials from the process
environment at call time (empty string when absent, so their absence is never
a startup error) and issues the request regardless; an exception from the
HTTP client yields the Failure envelope with the message in `error`, while
any answered request — including a provider-side auth error — yields
success=true with the response body in `results`. -/
theorem C8_search_web_failures (w : World) (q : String) :
    (∀ e, w.net googleSearchURL (searchParams w q) = .error e →
      web_search w q =
        [("results", PyVal.str ""), ("error", PyVal.str e),
         ("success", PyVal.bool false)]) ∧
    (∀ t, w.net googleSearchURL (searchParams w q) = .ok t →
      web_search w q = [("results", PyVal.str t), ("success", PyVal.bool true)]) := by
  constructor <;> (intro x h; unfold web_search; rw [h])

/-- A host whose HTTP client raises a transport error on every request. -/
def wNetDown : World := { wBase with net := fun _ _ => .error "Connection refused" }

/-- C8 witness: the transport-failure and answered cases at concrete hosts. -/
theorem C8_search_web_failures_witness :
    web_search wNetDown "q" =
      [("results", PyVal.str ""), ("error", PyVal.str "Connection refused"),
       ("success", PyVal.bool false)] ∧
    web_search wBase "q" = [("results", PyVal.str "ok"), ("success", PyVal.bool true)] :=
  ⟨(C8_search_web_failures wNetDown "q").1 "Connection refused" rfl,
   (C8_search_web_failures wBase "q").2 "ok" rfl⟩

/-- C2 counterexample: `execute_command` is a registered tool, yet the
envelope it relays carries NO `success` key at all (here in its normal
outcome), so a caller cannot branch on a single boolean field for this
tool. -/
theorem C2_counterexample :
    toolNames.contains "execute_command" = true ∧
    invoke wBase "execute_command" [("command", PyVal.str "exit 7")] =
      .relayed [("stdout", PyVal.str ""), ("stderr", PyVal.str ""),
        ("exit_code", PyVal.int 7)] wBase ∧
    List.lookup "success"
      [("stdout", PyVal.str ""), ("stderr", PyVal.str ""),
       ("exit_code", PyVal.int 7)] = none :=
  ⟨rfl, rfl, rfl⟩

/-- C2 (amended): for every registered tool EXCEPT `execute_command`, for
every host state and every argument mapping of the declared shape, the
envelope the dispatcher relays carries a boolean `success` field;
`execute_command`'s envelope instead carries stdout/stderr/exit_code with no
`success` key. -/
theorem C2_success_field (name : String) (hmem : name ∈ toolNames)
    (hne : name ≠ "execute_command") (w : World) (args : PyDict)
    (env : PyDict) (w' : World) (h : invoke w name args = .relayed env w') :
    hasSuccessBool env := by
  simp only [toolNames, List.mem_cons, List.not_mem_nil, or_false] at hmem
  rcases hmem with rfl | rfl | rfl | rfl | rfl | rfl | rfl | rfl | rfl | rfl | rfl | rfl
  · exact absurd rfl hne
  · have h' : (match argStr args "file_path" none with
        | none => InvokeOutcome.invalidArgs "file_path" w
        | some p => InvokeOutcome.relayed (read_file w p) w) = .relayed env w' := h
    cases hq : argStr args "file_path" none with
    | none => rw [hq] at h'; cases h'
    | some p =>
        rw [hq] at h'
        injection h' with h1 h2
        rw [← h1]
        exact hasSuccess_read_file w p
  · have h' : (match argStr args "file_path" none, argStr args "content" none,
        argStr args "mode" (some "w") with
      | some p, some c, some m =>
          let r := write_file w p c m
          InvokeOutcome.relayed r.1 r.2
      | _, _, _ => InvokeOutcome.invalidArgs "file_path, content, mode" w) =
        .relayed env w' := h
    rcases hq1 : argStr args "file_path" none with _ | p <;>
      rcases hq2 : argStr args "content" none with _ | c <;>
        rcases hq3 : argStr args "mode" (some "w") with _ | m <;>
          rw [hq1, hq2, hq3] at h' <;> cases h'
    exact hasSuccess_write_file w p c m
  · have h' : (match argStr args "file_path" none, argStr args "content" none with
      | some p, some c =>
          let r := append_file w p c
          InvokeOutcome.relayed r.1 r.2
      | _, _ => InvokeOutcome.invalidArgs "file_path, content" w) = .relayed env w' := h
    rcases hq1 : argStr args "file_path" none with _ | p <;>
      rcases hq2 : argStr args "content" none with _ | c <;>
        rw [hq1, hq2] at h' <;> cases h'
    exact hasSuccess_append_file w p c
  · have h' : (match argStr args "query" none with
        | none => InvokeOutcome.invalidArgs "query" w
        | some q => InvokeOutcome.relayed (web_search w q) w) = .relayed env w' := h
    cases hq : argStr args "query" none with
    | none => rw [hq] at h'; cases h'
    | some q =>
        rw [hq] at h'
        injection h' with h1 h2
        rw [← h1]
        exact hasSuccess_web_search w q
  · have h' : (match argStr args "url" none with
        | none => InvokeOutcome.invalidArgs "url" w
        | some u => InvokeOutcome.relayed (web_fetch w u) w) = .relayed env w' := h
    cases hq : argStr args "url" none with
    | none => rw [hq] at h'; cases h'
    | some u =>
        rw [hq] at h'
        injection h' with h1 h2
        rw [← h1]
        exact hasSuccess_web_fetch w u
  · have h' : (match argStr args "plan_content" none with
        | none => InvokeOutcome.invalidArgs "plan_content" w
        | some c =>
            match create_project_plan w c with
            | .ok r => InvokeOutcome.relayed r.1 r.2
            | .error m => InvokeOutcome.fault m) = .relayed env w' := h
    cases hq : argStr args "plan_content" none with
    | none => rw [hq] at h'; cases h'
    | some c =>
        rw [hq] at h'
        have h'' : (match create_project_plan w c with
            | Except.ok r => InvokeOutcome.relayed r.1 r.2
            | Except.error m => InvokeOutcome.fault m) = .relayed env w' := h'
        cases hc : create_project_plan w c with
        | error m => rw [hc] at h''; cases h''
        | ok r =>
            rw [hc] at h''
            cases h''
            exact hasSuccess_create_project_plan w c r.1 r.2 (by rw [hc])
  · have h' : (match argStr args "additional_content" none with
        | none => InvokeOutcome.invalidArgs "additional_content" w
        | some c =>
            let r := append_to_project_plan w c
            InvokeOutcome.relayed r.1 r.2) = .relayed env w' := h
    cases hq : argStr args "additional_content" none with
    | none => rw [hq] at h'; cases h'
    | some c =>
        rw [hq] at h'
        injection h' with h1 h2
        rw [← h1]
        exact hasSuccess_append_to_project_plan w c
  · have h' : InvokeOutcome.relayed (read_project_plan w) w = .relayed env w' := h
    injection h' with h1 h2
    rw [← h1]
    exact hasSuccess_read_project_plan w
  · have h' : (match argStr args "directory" (some ".") with
        | none => InvokeOutcome.invalidArgs "directory" w
        | some d => InvokeOutcome.relayed (list_directory w d) w) = .relayed env w' := h
    cases hq : argStr args "directory" (some ".") with
    | none => rw [hq] at h'; cases h'
    | some d =>
        rw [hq] at h'
        injection h' with h1 h2
        rw [← h1]
        exact hasSuccess_list_directory w d
  · have h' : (match argStr args "file_path" none with
        | none => InvokeOutcome.invalidArgs "file_path" w
        | some p => InvokeOutcome.relayed (get_file_info w p) w) = .relayed env w' := h
    cases hq : argStr args "file_path" none with
    | none => rw [hq] at h'; cases h'
    | some p =>
        rw [hq] at h'
        injection h' with h1 h2
        rw [← h1]
        exact hasSuccess_get_file_info w p
  · have h' : (match argStr args "directory_path" none with
        | none => InvokeOutcome.invalidArgs "directory_path" w
        | some p =>
            let r := create_directory w p
            InvokeOutcome.relayed r.1 r.2) = .relayed env w' := h
    cases hq : argStr args "directory_path" none with
    | none => rw [hq] at h'; cases h'
    | some p =>
        rw [hq] at h'
        injection h' with h1 h2
        rw [← h1]
        exact hasSuccess_create_directory w p

/-- C2 witness: the registered tool `read_plan` invoked on the concrete host
relays an envelope with a boolean `success` field. -/
theorem C2_success_field_witness :
    hasSuccessBool (read_project_plan wBase) :=
  C2_success_field "read_plan" (by decide) (by decide) wBase []
    (read_project_plan wBase) wBase rfl

/-- C6 counterexample: in a working directory where neither the plan document
nor the `project_plan` directory exists, `append_to_project_plan` returns
success=FALSE — both the header-creating write and the append fail because
the directory is missing and the function never creates it — refuting the
claim for "every starting state in which the document does not exist". -/
theorem C6_counterexample :
    wBase.files.lookup planPath = none ∧
    wBase.dirs.contains "project_plan" = false ∧
    (append_to_project_plan wBase "Step 2").1.lookup "success" =
      some (PyVal.bool false) :=
  ⟨rfl, rfl, rfl⟩

/-- C6 (amended): when the plan document is absent but the `project_plan`
directory exists and the plan path is writable, `append_plan` first creates
the document with the header and then appends the content prefixed by a
newline, returning success=true. -/
theorem C6_append_creates_with_header (w : World) (content : String)
    (hfile : w.files.lookup planPath = none)
    (hdir : w.dirs.contains planPath = false)
    (hlock : w.locked.contains planPath = false)
    (hpd : w.dirs.contains "project_plan" = true) :
    ∃ w', append_to_project_plan w content = ([("success", PyVal.bool true)], w') ∧
      w'.files.lookup planPath =
        some (planHeader w.cwd ++ ("\n" ++ content)) := by
  have hpe : pathExists w planPath = false := by
    unfold pathExists
    rw [hfile, hdir]
    rfl
  have hp : parentDir planPath = "project_plan" := by decide
  have hde : dirExists w (parentDir planPath) = true := by
    unfold dirExists
    rw [hp, hpd]
    rfl
  have hw1 : pyWriteFile w planPath (planHeader w.cwd) "w" =
      .ok { w with files := setFile w.files planPath (planHeader w.cwd) } := by
    unfold pyWriteFile
    rw [hdir, hlock, hde]
    rfl
  have happ : pyWriteFile { w with files := setFile w.files planPath (planHeader w.cwd) }
      planPath ("\n" ++ content) "a" =
      .ok { w with files := (setFile (setFile w.files planPath (planHeader w.cwd)) planPath (planHeader w.cwd ++ ("\n" ++ content))) } := by
    unfold pyWriteFile dirExists
    dsimp only
    rw [hdir, hlock, hp, hpd, setFile_lookup]
    rfl
  have hsel : append_to_project_plan w content =
      append_file (write_file w planPath (planHeader w.cwd) "w").2 planPath
        ("\n" ++ content) := by
    unfold append_to_project_plan
    rw [hpe]
    rfl
  have h2 : (write_file w planPath (planHeader w.cwd) "w").2 =
      { w with files := setFile w.files planPath (planHeader w.cwd) } := by
    unfold write_file
    rw [hw1]
  refine ⟨{ w with files := (setFile (setFile w.files planPath (planHeader w.cwd)) planPath (planHeader w.cwd ++ ("\n" ++ content))) }, ?_, setFile_lookup _ _ _⟩
  rw [hsel, h2]
  unfold append_file write_file
  rw [happ]

/-- C6 witness: a concrete host whose `project_plan` directory already
exists. -/
theorem C6_append_creates_with_header_witness :
    ∃ w', append_to_project_plan { wBase with dirs := ["project_plan"] } "Step 2" =
        ([("success", PyVal.bool true)], w') ∧
      w'.files.lookup planPath =
        some (planHeader "/home/user" ++ ("\n" ++ "Step 2")) :=
  C6_append_creates_with_header { wBase with dirs := ["project_plan"] } "Step 2"
    rfl rfl rfl rfl

theorem plan_chain (w1 : World)
    (hdir : w1.dirs.contains planPath = false)
    (hlock : w1.locked.contains planPath = false)
    (hpd : w1.dirs.contains "project_plan" = true) :
    ∃ w2 w3,
      write_file w1 planPath (planHeader w1.cwd ++ "Step 1") "w" =
        ([("success", PyVal.bool true)], w2) ∧
      (read_project_plan w2).lookup "content" =
        some (PyVal.str (planHeader w1.cwd ++ "Step 1")) ∧
      append_to_project_plan w2 "Step 2" = ([("success", PyVal.bool true)], w3) ∧
      (read_project_plan w3).lookup "content" =
        some (PyVal.str (planHeader w1.cwd ++ "Step 1" ++ "\nStep 2")) := by
  have hp : parentDir planPath = "project_plan" := by decide
  have hde : dirExists w1 (parentDir planPath) = true := by
    unfold dirExists
    rw [hp, hpd]
    rfl
  have hw : pyWriteFile w1 planPath (planHeader w1.cwd ++ "Step 1") "w" =
      .ok { w1 with files := setFile w1.files planPath (planHeader w1.cwd ++ "Step 1") } := by
    unfold pyWriteFile
    rw [hdir, hlock, hde]
    rfl
  have hpe2 : pathExists { w1 with files := setFile w1.files planPath (planHeader w1.cwd ++ "Step 1") } planPath = true := by
    unfold pathExists
    dsimp only
    rw [setFile_lookup]
    rfl
  have happ2 : pyWriteFile { w1 with files := setFile w1.files planPath (planHeader w1.cwd ++ "Step 1") } planPath ("\n" ++ "Step 2") "a" =
      .ok { w1 with files := (setFile (setFile w1.files planPath (planHeader w1.cwd ++ "Step 1")) planPath (planHeader w1.cwd ++ "Step 1" ++ "\nStep 2")) } := by
    unfold pyWriteFile dirExists
    dsimp only
    rw [hdir, hlock, hp, hpd, setFile_lookup]
    rfl
  refine ⟨{ w1 with files := setFile w1.files planPath (planHeader w1.cwd ++ "Step 1") },
    { w1 with files := (setFile (setFile w1.files planPath (planHeader w1.cwd ++ "Step 1")) planPath (planHeader w1.cwd ++ "Step 1" ++ "\nStep 2")) },
    ?_, ?_, ?_, ?_⟩
  · unfold write_file
    rw [hw]
  · unfold read_project_plan read_file pyReadFile
    dsimp only
    rw [hdir, hlock, setFile_lookup]
    rfl
  · have hsel2 : append_to_project_plan { w1 with files := setFile w1.files planPath (planHeader w1.cwd ++ "Step 1") } "Step 2" =
        append_file { w1 with files := setFile w1.files planPath (planHeader w1.cwd ++ "Step 1") } planPath ("\n" ++ "Step 2") := by
      unfold append_to_project_plan
      rw [hpe2]
      rfl
    rw [hsel2]
    unfold append_file write_file
    rw [happ2]
  · unfold read_project_plan read_file pyReadFile
    dsimp only
    rw [hdir, hlock, setFile_lookup]
    rfl

/-- C5: from a state with no plan document (and a writable plan path),
`create_plan("Step 1")` then `read_plan()` yields exactly the header line, a
blank line, the working-directory line, a blank line, and "Step 1", in the
single file at `project_plan/action_plan.md`; a subsequent
`append_plan("Step 2")` then `read_plan()` yields that content with
"\nStep 2" appended — so "Step 2" appears after "Step 1". -/
theorem C5_plan_roundtrip (w : World)
    (hfile : w.files.lookup planPath = none)
    (hdir : w.dirs.contains planPath = false)
    (hlock : w.locked.contains planPath = false)
    (hclash : w.files.lookup "project_plan" = none) :
    ∃ e1 w1 w2,
      create_project_plan w "Step 1" = .ok (e1, w1) ∧
      e1.lookup "success" = some (PyVal.bool true) ∧
      (read_project_plan w1).lookup "content" =
        some (PyVal.str (planHeader w.cwd ++ "Step 1")) ∧
      append_to_project_plan w1 "Step 2" = ([("success", PyVal.bool true)], w2) ∧
      (read_project_plan w2).lookup "content" =
        some (PyVal.str (planHeader w.cwd ++ "Step 1" ++ "\nStep 2")) := by
  cases hcd : w.dirs.contains "project_plan" with
  | true =>
      have hmk : pyMkdir w "project_plan" = .ok w := by
        unfold pyMkdir
        rw [hclash, hcd]
        rfl
      obtain ⟨w2, w3, hA, hB, hC, hD⟩ := plan_chain w hdir hlock hcd
      refine ⟨[("success", PyVal.bool true)], w2, w3, ?_, rfl, hB, hC, hD⟩
      unfold create_project_plan
      rw [hmk]
      dsimp only
      rw [hA]
  | false =>
      have hmk : pyMkdir w "project_plan" =
          .ok { w with dirs := "project_plan" :: w.dirs } := by
        unfold pyMkdir
        rw [hclash, hcd]
        rfl
      obtain ⟨w2, w3, hA, hB, hC, hD⟩ :=
        plan_chain { w with dirs := "project_plan" :: w.dirs } hdir hlock rfl
      refine ⟨[("success", PyVal.bool true)], w2, w3, ?_, rfl, hB, hC, hD⟩
      unfold create_project_plan
      rw [hmk]
      dsimp only
      rw [hA]

/-- C5 witness: the concrete host with an empty file store. -/
theorem C5_plan_roundtrip_witness :
    ∃ e1 w1 w2,
      create_project_plan wBase "Step 1" = .ok (e1, w1) ∧
      e1.lookup "success" = some (PyVal.bool true) ∧
      (read_project_plan w1).lookup "content" =
        some (PyVal.str (planHeader "/home/user" ++ "Step 1")) ∧
      append_to_project_plan w1 "Step 2" = ([("success", PyVal.bool true)], w2) ∧
      (read_project_plan w2).lookup "content" =
        some (PyVal.str (planHeader "/home/user" ++ "Step 1" ++ "\nStep 2")) :=
  C5_plan_roundtrip wBase rfl rfl rfl rfl

/-- C10: every Operation Library function that carries a `success` field —
all of them except `run_command` — returns its `error` key exactly when
`success` is false: absent on success, present with the failure message
string on failure (for `create_project_plan`, in every run that returns an
envelope at all). -/
theorem C10_error_key_iff_failure (w : World) :
    (∀ p, errorIffFailure (read_file w p)) ∧
    (∀ p c m, errorIffFailure (write_file w p c m).1) ∧
    (∀ p c, errorIffFailure (append_file w p c).1) ∧
    (∀ q, errorIffFailure (web_search w q)) ∧
    (∀ u, errorIffFailure (web_fetch w u)) ∧
    (∀ c env w', create_project_plan w c = .ok (env, w') → errorIffFailure env) ∧
    (∀ c, errorIffFailure (append_to_project_plan w c).1) ∧
    errorIffFailure (read_project_plan w) ∧
    (∀ d, errorIffFailure (list_directory w d)) ∧
    (∀ p, errorIffFailure (get_file_info w p)) ∧
    (∀ p, errorIffFailure (create_directory w p).1) :=
  ⟨errIff_read_file w, errIff_write_file w, errIff_append_file w,
   errIff_web_search w, errIff_web_fetch w,
   fun c env w' h => errIff_create_project_plan w c env w' h,
   errIff_append_to_project_plan w, errIff_read_project_plan w,
   errIff_list_directory w, errIff_get_file_info w, errIff_create_directory w⟩

/-- C10 witness: concrete runs on both sides of the invariant — a failed
read (error present, success=false), a successful directory creation (no
error, success=true), and a successful plan creation. -/
theorem C10_error_key_iff_failure_witness :
    errorIffFailure (read_file wBase "missing.txt") ∧
    errorIffFailure (create_directory wBase "a/b").1 ∧
    ∃ env w', create_project_plan wBase "x" = .ok (env, w') ∧ errorIffFailure env := by
  refine ⟨(C10_error_key_iff_failure wBase).1 "missing.txt",
    (C10_error_key_iff_failure wBase).2.2.2.2.2.2.2.2.2.2 "a/b", ⟨_, _, rfl, ?_⟩⟩
  exact (C10_error_key_iff_failure wBase).2.2.2.2.2.1 "x" _ _ rfl

theorem pyJsonItems_mem (ind : Nat) (x : PyVal) :
    ∀ xs : List PyVal, x ∈ xs →
      ∃ a b, pyJsonItems ind xs = a ++ (pyJson ind x ++ b) := by
  intro xs
  induction xs with
  | nil => intro h; cases h
  | cons y ys ih =>
      intro h
      cases ys with
      | nil =>
          rcases List.mem_cons.mp h with rfl | hm
          · exact ⟨indentSp ind, "", by simp [pyJsonItems]⟩
          · cases hm
      | cons z zs =>
          rcases List.mem_cons.mp h with rfl | hm
          · exact ⟨indentSp ind, ",\n" ++ pyJsonItems ind (z :: zs), by
              simp [pyJsonItems, String.append_assoc]⟩
          · obtain ⟨a, b, hab⟩ := ih hm
            exact ⟨indentSp ind ++ pyJson ind y ++ ",\n" ++ a, b, by
              simp [pyJsonItems, hab, String.append_assoc]⟩

set_option maxRecDepth 8192 in
/-- C9: run standalone with arguments, the process joins them with spaces,
executes the result through `run_command`, and prints that envelope as
indent-2 JSON; with no arguments it prints the banner and the full catalog —
one name/description row per Operation Library function, every row appearing
in the emitted JSON. -/
theorem C9_standalone_main (w : World) :
    (∀ argv : List String, argv ≠ [] →
      pyMain w argv =
        pyJson 0 (.dict (run_command w (String.intercalate " " argv))) ++ "\n") ∧
    pyMain w [] = "Available functions:\n" ++ get_functions_schema ++ "\n" ∧
    functionsCatalog.map Prod.fst =
      ["run_command", "read_file", "write_file", "append_file", "web_search",
       "web_fetch", "create_project_plan", "append_to_project_plan",
       "read_project_plan", "list_directory", "get_file_info", "create_directory"] ∧
    (∀ nd ∈ functionsCatalog, ∃ a b,
      get_functions_schema = a ++ (pyJson 2 (schemaRow nd) ++ b)) := by
  refine ⟨?_, rfl, rfl, ?_⟩
  · intro argv h
    unfold pyMain
    rw [if_pos (List.length_pos.mpr h)]
  · intro nd hnd
    obtain ⟨a, b, hab⟩ := pyJsonItems_mem 2 (schemaRow nd)
      (functionsCatalog.map schemaRow) (List.mem_map_of_mem _ hnd)
    refine ⟨"[\n" ++ a, b ++ ("\n" ++ (indentSp 0 ++ "]")), ?_⟩
    have hs : get_functions_schema =
        "[\n" ++ pyJsonItems 2 (functionsCatalog.map schemaRow) ++ "\n" ++
          indentSp 0 ++ "]" := rfl
    rw [hs, hab]
    simp [String.append_assoc]

set_option maxRecDepth 8192 in
/-- C9 witness: a concrete two-token command line, and the catalog's
`run_command` row appearing in the schema output. -/
theorem C9_standalone_main_witness :
    pyMain wBase ["exit", "7"] =
      pyJson 0 (.dict (run_command wBase (String.intercalate " " ["exit", "7"]))) ++ "\n" ∧
    ∃ a b, get_functions_schema =
      a ++ (pyJson 2 (schemaRow ("run_command",
        "Run a shell command and return the output and exit code.\n    \n    Args:\n        command: Command to execute\n        \n    Returns:\n        Dictionary with stdout, stderr, and exit_code")) ++ b) :=
  ⟨(C9_standalone_main wBase).1 ["exit", "7"] (by decide),
   (C9_standalone_main wBase).2.2.2 _ (by decide)⟩
